/-
Verification of the libretro-sys constant catalog (src/lib.rs).

The crate is a flat table of `libc::c_uint` (32-bit unsigned) constants
mirroring the libretro ABI header.  Each Rust `pub const` below is embedded
as a `Nat` definition carrying the very expression the source uses; 32-bit
behaviour (bitwise NOT, shift wrap-around) is made explicit with `% 2 ^ 32`
and XOR against `2 ^ 32 - 1` where it matters.
-/
import Mathlib

/-- `pub const API_VERSION: libc::c_uint = 1;` -/
def API_VERSION : Nat := 1

/-- `pub const DEVICE_TYPE_SHIFT: libc::c_uint = 8;` -/
def DEVICE_TYPE_SHIFT : Nat := 8

/-- `pub const DEVICE_MASK: libc::c_uint = (1 << DEVICE_TYPE_SHIFT) - 1;` -/
def DEVICE_MASK : Nat := (1 <<< DEVICE_TYPE_SHIFT) - 1

def DEVICE_NONE : Nat := 0

def DEVICE_JOYPAD : Nat := 1

def DEVICE_MOUSE : Nat := 2

def DEVICE_KEYBOARD : Nat := 3

def DEVICE_LIGHTGUN : Nat := 4

def DEVICE_ANALOG : Nat := 5

def DEVICE_POINTER : Nat := 6

def DEVICE_ID_JOYPAD_B : Nat := 0

def DEVICE_ID_JOYPAD_Y : Nat := 1

def DEVICE_ID_JOYPAD_SELECT : Nat := 2

def DEVICE_ID_JOYPAD_START : Nat := 3

def DEVICE_ID_JOYPAD_UP : Nat := 4

def DEVICE_ID_JOYPAD_DOWN : Nat := 5

def DEVICE_ID_JOYPAD_LEFT : Nat := 6

def DEVICE_ID_JOYPAD_RIGHT : Nat := 7

def DEVICE_ID_JOYPAD_A : Nat := 8

def DEVICE_ID_JOYPAD_X : Nat := 9

def DEVICE_ID_JOYPAD_L : Nat := 10

def DEVICE_ID_JOYPAD_R : Nat := 11

def DEVICE_ID_JOYPAD_L2 : Nat := 12

def DEVICE_ID_JOYPAD_R2 : Nat := 13

def DEVICE_ID_JOYPAD_L3 : Nat := 14

def DEVICE_ID_JOYPAD_R3 : Nat := 15

/-- `pub const DEVICE_ID_JOYPAD_MASK: libc::c_uint = 256;` -/
def DEVICE_ID_JOYPAD_MASK : Nat := 256

def DEVICE_INDEX_ANALOG_LEFT : Nat := 0

def DEVICE_INDEX_ANALOG_RIGHT : Nat := 1

def DEVICE_INDEX_ANALOG_BUTTON : Nat := 2

def DEVICE_ID_ANALOG_X : Nat := 0

def DEVICE_ID_ANALOG_Y : Nat := 1

def DEVICE_ID_MOUSE_X : Nat := 0

def DEVICE_ID_MOUSE_Y : Nat := 1

def DEVICE_ID_MOUSE_LEFT : Nat := 2

def DEVICE_ID_MOUSE_RIGHT : Nat := 3

def DEVICE_ID_MOUSE_WHEELUP : Nat := 4

def DEVICE_ID_MOUSE_WHEELDOWN : Nat := 5

def DEVICE_ID_MOUSE_MIDDLE : Nat := 6

def DEVICE_ID_MOUSE_HORIZ_WHEELUP : Nat := 7

def DEVICE_ID_MOUSE_HORIZ_WHEELDOWN : Nat := 8

def DEVICE_ID_MOUSE_BUTTON_4 : Nat := 9

def DEVICE_ID_MOUSE_BUTTON_5 : Nat := 10

def DEVICE_ID_LIGHTGUN_SCREEN_X : Nat := 13

def DEVICE_ID_LIGHTGUN_SCREEN_Y : Nat := 14

def DEVICE_ID_LIGHTGUN_IS_OFFSCREEN : Nat := 15

def DEVICE_ID_LIGHTGUN_TRIGGER : Nat := 2

def DEVICE_ID_LIGHTGUN_RELOAD : Nat := 16

def DEVICE_ID_LIGHTGUN_AUX_A : Nat := 3

def DEVICE_ID_LIGHTGUN_AUX_B : Nat := 4

def DEVICE_ID_LIGHTGUN_START : Nat := 6

def DEVICE_ID_LIGHTGUN_SELECT : Nat := 7

def DEVICE_ID_LIGHTGUN_AUX_C : Nat := 8

def DEVICE_ID_LIGHTGUN_DPAD_UP : Nat := 9

def DEVICE_ID_LIGHTGUN_DPAD_DOWN : Nat := 10

def DEVICE_ID_LIGHTGUN_DPAD_LEFT : Nat := 11

def DEVICE_ID_LIGHTGUN_DPAD_RIGHT : Nat := 12

/-- Marked `/// deprecated` in the source, together with the four names
that follow it. -/
def DEVICE_ID_LIGHTGUN_X : Nat := 0

def DEVICE_ID_LIGHTGUN_Y : Nat := 1

def DEVICE_ID_LIGHTGUN_CURSOR : Nat := 3

def DEVICE_ID_LIGHTGUN_TURBO : Nat := 4

def DEVICE_ID_LIGHTGUN_PAUSE : Nat := 5

def DEVICE_ID_POINTER_X : Nat := 0

def DEVICE_ID_POINTER_Y : Nat := 1

def DEVICE_ID_POINTER_PRESSED : Nat := 2

def DEVICE_ID_POINTER_COUNT : Nat := 3

def REGION_NTSC : Nat := 0

def REGION_PAL : Nat := 1

/-- `pub const MEMORY_MASK: libc::c_uint = 0xff;` -/
def MEMORY_MASK : Nat := 0xff

def MEMORY_SAVE_RAM : Nat := 0

def MEMORY_RTC : Nat := 1

def MEMORY_SYSTEM_RAM : Nat := 2

def MEMORY_VIDEO_RAM : Nat := 3

/-- `pub const ENVIRONMENT_EXPERIMENTAL: libc::c_uint = 0x10000;` -/
def ENVIRONMENT_EXPERIMENTAL : Nat := 0x10000

/-- `pub const ENVIRONMENT_PRIVATE: libc::c_uint = 0x20000;` -/
def ENVIRONMENT_PRIVATE : Nat := 0x20000

def ENVIRONMENT_SET_ROTATION : Nat := 1

def ENVIRONMENT_GET_OVERSCAN : Nat := 2

def ENVIRONMENT_GET_CAN_DUPE : Nat := 3

def ENVIRONMENT_SET_MESSAGE : Nat := 6

def ENVIRONMENT_SHUTDOWN : Nat := 7

def ENVIRONMENT_SET_PERFORMANCE_LEVEL : Nat := 8

def ENVIRONMENT_GET_SYSTEM_DIRECTORY : Nat := 9

def ENVIRONMENT_SET_PIXEL_FORMAT : Nat := 10

def ENVIRONMENT_SET_INPUT_DESCRIPTORS : Nat := 11

def ENVIRONMENT_SET_KEYBOARD_CALLBACK : Nat := 12

def ENVIRONMENT_SET_DISK_CONTROL_INTERFACE : Nat := 13

def ENVIRONMENT_SET_HW_RENDER : Nat := 14

def ENVIRONMENT_GET_VARIABLE : Nat := 15

def ENVIRONMENT_SET_VARIABLES : Nat := 16

def ENVIRONMENT_GET_VARIABLE_UPDATE : Nat := 17

def ENVIRONMENT_SET_SUPPORT_NO_GAME : Nat := 18

def ENVIRONMENT_GET_LIBRETRO_PATH : Nat := 19

def ENVIRONMENT_SET_FRAME_TIME_CALLBACK : Nat := 21

def ENVIRONMENT_SET_AUDIO_CALLBACK : Nat := 22

def ENVIRONMENT_GET_RUMBLE_INTERFACE : Nat := 23

def ENVIRONMENT_GET_INPUT_DEVICE_CAPABILITIES : Nat := 24

/-- `... = 25 | ENVIRONMENT_EXPERIMENTAL;` -/
def ENVIRONMENT_GET_SENSOR_INTERFACE : Nat := 25 ||| ENVIRONMENT_EXPERIMENTAL

def ENVIRONMENT_GET_CAMERA_INTERFACE : Nat := 26 ||| ENVIRONMENT_EXPERIMENTAL

def ENVIRONMENT_GET_LOG_INTERFACE : Nat := 27

def ENVIRONMENT_GET_PERF_INTERFACE : Nat := 28

def ENVIRONMENT_GET_LOCATION_INTERFACE : Nat := 29

def ENVIRONMENT_GET_CONTENT_DIRECTORY : Nat := 30

def ENVIRONMENT_GET_SAVE_DIRECTORY : Nat := 31

def ENVIRONMENT_SET_SYSTEM_AV_INFO : Nat := 32

def ENVIRONMENT_SET_PROC_ADDRESS_CALLBACK : Nat := 33

def ENVIRONMENT_SET_SUBSYSTEM_INFO : Nat := 34

def ENVIRONMENT_SET_CONTROLLER_INFO : Nat := 35

def ENVIRONMENT_SET_MEMORY_MAPS : Nat := 36 ||| ENVIRONMENT_EXPERIMENTAL

def ENVIRONMENT_SET_GEOMETRY : Nat := 37

def ENVIRONMENT_GET_USERNAME : Nat := 38

def ENVIRONMENT_GET_LANGUAGE : Nat := 39

def ENVIRONMENT_GET_CURRENT_SOFTWARE_FRAMEBUFFER : Nat := 40 ||| ENVIRONMENT_EXPERIMENTAL

def ENVIRONMENT_GET_HW_RENDER_INTERFACE : Nat := 41 ||| ENVIRONMENT_EXPERIMENTAL

def ENVIRONMENT_SET_SUPPORT_ACHIEVEMENTS : Nat := 42 ||| ENVIRONMENT_EXPERIMENTAL

def ENVIRONMENT_SET_HW_RENDER_CONTEXT_NEGOTIATION_INTERFACE : Nat := 43 ||| ENVIRONMENT_EXPERIMENTAL

def ENVIRONMENT_SET_SERIALIZATION_QUIRKS : Nat := 44

def ENVIRONMENT_SET_HW_SHARED_CONTEXT : Nat := 44 ||| ENVIRONMENT_EXPERIMENTAL

def ENVIRONMENT_GET_VFS_INTERFACE : Nat := 45 ||| ENVIRONMENT_EXPERIMENTAL

def ENVIRONMENT_GET_LED_INTERFACE : Nat := 46 ||| ENVIRONMENT_EXPERIMENTAL

def ENVIRONMENT_GET_AUDIO_VIDEO_ENABLE : Nat := 47 ||| ENVIRONMENT_EXPERIMENTAL

def ENVIRONMENT_GET_MIDI_INTERFACE : Nat := 48 ||| ENVIRONMENT_EXPERIMENTAL

def ENVIRONMENT_GET_FASTFORWARDING : Nat := 49 ||| ENVIRONMENT_EXPERIMENTAL

def ENVIRONMENT_GET_TARGET_REFRESH_RATE : Nat := 50 ||| ENVIRONMENT_EXPERIMENTAL

def ENVIRONMENT_GET_INPUT_BITMASKS : Nat := 51 ||| ENVIRONMENT_EXPERIMENTAL

def ENVIRONMENT_GET_CORE_OPTIONS_VERSION : Nat := 52

def ENVIRONMENT_SET_CORE_OPTIONS : Nat := 53

def ENVIRONMENT_SET_CORE_OPTIONS_INTL : Nat := 54

def ENVIRONMENT_SET_CORE_OPTIONS_DISPLAY : Nat := 55

def ENVIRONMENT_GET_PREFERRED_HW_RENDER : Nat := 56

def ENVIRONMENT_GET_DISK_CONTROL_INTERFACE_VERSION : Nat := 57

def ENVIRONMENT_SET_DISK_CONTROL_EXT_INTERFACE : Nat := 58

def ENVIRONMENT_GET_MESSAGE_INTERFACE_VERSION : Nat := 59

def ENVIRONMENT_SET_MESSAGE_EXT : Nat := 60

def ENVIRONMENT_GET_INPUT_MAX_USERS : Nat := 61

def ENVIRONMENT_SET_AUDIO_BUFFER_STATUS_CALLBACK : Nat := 62

def ENVIRONMENT_SET_MINIMUM_AUDIO_LATENCY : Nat := 63

def ENVIRONMENT_SET_FASTFORWARDING_OVERRIDE : Nat := 64

def ENVIRONMENT_SET_CONTENT_INFO_OVERRIDE : Nat := 65

def ENVIRONMENT_GET_GAME_INFO_EXT : Nat := 66

def ENVIRONMENT_SET_CORE_OPTIONS_V2 : Nat := 67

def ENVIRONMENT_SET_CORE_OPTIONS_V2_INTL : Nat := 68

def ENVIRONMENT_SET_CORE_OPTIONS_UPDATE_DISPLAY_CALLBACK : Nat := 69

def ENVIRONMENT_SET_VARIABLE : Nat := 70

def ENVIRONMENT_GET_THROTTLE_STATE : Nat := 71 ||| ENVIRONMENT_EXPERIMENTAL

def ENVIRONMENT_GET_SAVESTATE_CONTEXT : Nat := 72 ||| ENVIRONMENT_EXPERIMENTAL

def ENVIRONMENT_GET_HW_RENDER_CONTEXT_NEGOTIATION_INTERFACE_SUPPORT : Nat := 73 ||| ENVIRONMENT_EXPERIMENTAL

/-- All seventy published environment-command constants, in source order. -/
def envCommands : List Nat :=
  [ENVIRONMENT_SET_ROTATION, ENVIRONMENT_GET_OVERSCAN, ENVIRONMENT_GET_CAN_DUPE,
   ENVIRONMENT_SET_MESSAGE, ENVIRONMENT_SHUTDOWN, ENVIRONMENT_SET_PERFORMANCE_LEVEL,
   ENVIRONMENT_GET_SYSTEM_DIRECTORY, ENVIRONMENT_SET_PIXEL_FORMAT,
   ENVIRONMENT_SET_INPUT_DESCRIPTORS, ENVIRONMENT_SET_KEYBOARD_CALLBACK,
   ENVIRONMENT_SET_DISK_CONTROL_INTERFACE, ENVIRONMENT_SET_HW_RENDER,
   ENVIRONMENT_GET_VARIABLE, ENVIRONMENT_SET_VARIABLES, ENVIRONMENT_GET_VARIABLE_UPDATE,
   ENVIRONMENT_SET_SUPPORT_NO_GAME, ENVIRONMENT_GET_LIBRETRO_PATH,
   ENVIRONMENT_SET_FRAME_TIME_CALLBACK, ENVIRONMENT_SET_AUDIO_CALLBACK,
   ENVIRONMENT_GET_RUMBLE_INTERFACE, ENVIRONMENT_GET_INPUT_DEVICE_CAPABILITIES,
   ENVIRONMENT_GET_SENSOR_INTERFACE, ENVIRONMENT_GET_CAMERA_INTERFACE,
   ENVIRONMENT_GET_LOG_INTERFACE, ENVIRONMENT_GET_PERF_INTERFACE,
   ENVIRONMENT_GET_LOCATION_INTERFACE, ENVIRONMENT_GET_CONTENT_DIRECTORY,
   ENVIRONMENT_GET_SAVE_DIRECTORY, ENVIRONMENT_SET_SYSTEM_AV_INFO,
   ENVIRONMENT_SET_PROC_ADDRESS_CALLBACK, ENVIRONMENT_SET_SUBSYSTEM_INFO,
   ENVIRONMENT_SET_CONTROLLER_INFO, ENVIRONMENT_SET_MEMORY_MAPS, ENVIRONMENT_SET_GEOMETRY,
   ENVIRONMENT_GET_USERNAME, ENVIRONMENT_GET_LANGUAGE,
   ENVIRONMENT_GET_CURRENT_SOFTWARE_FRAMEBUFFER, ENVIRONMENT_GET_HW_RENDER_INTERFACE,
   ENVIRONMENT_SET_SUPPORT_ACHIEVEMENTS,
   ENVIRONMENT_SET_HW_RENDER_CONTEXT_NEGOTIATION_INTERFACE,
   ENVIRONMENT_SET_SERIALIZATION_QUIRKS, ENVIRONMENT_SET_HW_SHARED_CONTEXT,
   ENVIRONMENT_GET_VFS_INTERFACE, ENVIRONMENT_GET_LED_INTERFACE,
   ENVIRONMENT_GET_AUDIO_VIDEO_ENABLE, ENVIRONMENT_GET_MIDI_INTERFACE,
   ENVIRONMENT_GET_FASTFORWARDING, ENVIRONMENT_GET_TARGET_REFRESH_RATE,
   ENVIRONMENT_GET_INPUT_BITMASKS, ENVIRONMENT_GET_CORE_OPTIONS_VERSION,
   ENVIRONMENT_SET_CORE_OPTIONS, ENVIRONMENT_SET_CORE_OPTIONS_INTL,
   ENVIRONMENT_SET_CORE_OPTIONS_DISPLAY, ENVIRONMENT_GET_PREFERRED_HW_RENDER,
   ENVIRONMENT_GET_DISK_CONTROL_INTERFACE_VERSION,
   ENVIRONMENT_SET_DISK_CONTROL_EXT_INTERFACE,
   ENVIRONMENT_GET_MESSAGE_INTERFACE_VERSION, ENVIRONMENT_SET_MESSAGE_EXT,
   ENVIRONMENT_GET_INPUT_MAX_USERS, ENVIRONMENT_SET_AUDIO_BUFFER_STATUS_CALLBACK,
   ENVIRONMENT_SET_MINIMUM_AUDIO_LATENCY, ENVIRONMENT_SET_FASTFORWARDING_OVERRIDE,
   ENVIRONMENT_SET_CONTENT_INFO_OVERRIDE, ENVIRONMENT_GET_GAME_INFO_EXT,
   ENVIRONMENT_SET_CORE_OPTIONS_V2, ENVIRONMENT_SET_CORE_OPTIONS_V2_INTL,
   ENVIRONMENT_SET_CORE_OPTIONS_UPDATE_DISPLAY_CALLBACK, ENVIRONMENT_SET_VARIABLE,
   ENVIRONMENT_GET_THROTTLE_STATE, ENVIRONMENT_GET_SAVESTATE_CONTEXT,
   ENVIRONMENT_GET_HW_RENDER_CONTEXT_NEGOTIATION_INTERFACE_SUPPORT]

/-- Bitwise complement on a 32-bit unsigned value, i.e. Rust `!x` at type
`libc::c_uint`. -/
def not32 (x : Nat) : Nat := x ^^^ (2 ^ 32 - 1)

/-- The base command code of an environment-command value: the value with the
`ENVIRONMENT_EXPERIMENTAL` (0x10000) and `ENVIRONMENT_PRIVATE` (0x20000)
modifier bits cleared. -/
def baseCode (v : Nat) : Nat :=
  v &&& not32 (ENVIRONMENT_EXPERIMENTAL ||| ENVIRONMENT_PRIVATE)

/-- Compose a device type `d` with a subclass `s` the way the header's
`RETRO_DEVICE_SUBCLASS` does: `(s << DEVICE_TYPE_SHIFT) | d` on a 32-bit
unsigned int. -/
def encodeDevice (d s : Nat) : Nat := ((s <<< DEVICE_TYPE_SHIFT) % 2 ^ 32) ||| d

/-- The inverse operations: mask with `DEVICE_MASK` to recover the device type,
shift right by `DEVICE_TYPE_SHIFT` to recover the subclass. -/
def decodeDevice (v : Nat) : Nat × Nat := (v &&& DEVICE_MASK, v >>> DEVICE_TYPE_SHIFT)

/-- The seven published device-type constants, in source order. -/
def deviceTypes : List Nat :=
  [DEVICE_NONE, DEVICE_JOYPAD, DEVICE_MOUSE, DEVICE_KEYBOARD, DEVICE_LIGHTGUN,
   DEVICE_ANALOG, DEVICE_POINTER]

/-- Joypad-namespace id constants, in source order, paired with whether the
source documents the name as deprecated (none are). -/
def joypadIdEntries : List (Nat × Bool) :=
  [(DEVICE_ID_JOYPAD_B, false), (DEVICE_ID_JOYPAD_Y, false),
   (DEVICE_ID_JOYPAD_SELECT, false), (DEVICE_ID_JOYPAD_START, false),
   (DEVICE_ID_JOYPAD_UP, false), (DEVICE_ID_JOYPAD_DOWN, false),
   (DEVICE_ID_JOYPAD_LEFT, false), (DEVICE_ID_JOYPAD_RIGHT, false),
   (DEVICE_ID_JOYPAD_A, false), (DEVICE_ID_JOYPAD_X, false),
   (DEVICE_ID_JOYPAD_L, false), (DEVICE_ID_JOYPAD_R, false),
   (DEVICE_ID_JOYPAD_L2, false), (DEVICE_ID_JOYPAD_R2, false),
   (DEVICE_ID_JOYPAD_L3, false), (DEVICE_ID_JOYPAD_R3, false),
   (DEVICE_ID_JOYPAD_MASK, false)]

/-- Analog-index namespace constants (the `index` argument of the input-state
callback), none deprecated. -/
def analogIndexEntries : List (Nat × Bool) :=
  [(DEVICE_INDEX_ANALOG_LEFT, false), (DEVICE_INDEX_ANALOG_RIGHT, false),
   (DEVICE_INDEX_ANALOG_BUTTON, false)]

/-- Analog-id namespace constants, none deprecated. -/
def analogIdEntries : List (Nat × Bool) :=
  [(DEVICE_ID_ANALOG_X, false), (DEVICE_ID_ANALOG_Y, false)]

/-- Mouse-namespace id constants, none deprecated. -/
def mouseIdEntries : List (Nat × Bool) :=
  [(DEVICE_ID_MOUSE_X, false), (DEVICE_ID_MOUSE_Y, false),
   (DEVICE_ID_MOUSE_LEFT, false), (DEVICE_ID_MOUSE_RIGHT, false),
   (DEVICE_ID_MOUSE_WHEELUP, false), (DEVICE_ID_MOUSE_WHEELDOWN, false),
   (DEVICE_ID_MOUSE_MIDDLE, false), (DEVICE_ID_MOUSE_HORIZ_WHEELUP, false),
   (DEVICE_ID_MOUSE_HORIZ_WHEELDOWN, false), (DEVICE_ID_MOUSE_BUTTON_4, false),
   (DEVICE_ID_MOUSE_BUTTON_5, false)]

/-- Lightgun-namespace id constants; the five names under the source's
`/// deprecated` comment (X, Y, CURSOR, TURBO, PAUSE) are flagged `true`. -/
def lightgunIdEntries : List (Nat × Bool) :=
  [(DEVICE_ID_LIGHTGUN_SCREEN_X, false), (DEVICE_ID_LIGHTGUN_SCREEN_Y, false),
   (DEVICE_ID_LIGHTGUN_IS_OFFSCREEN, false), (DEVICE_ID_LIGHTGUN_TRIGGER, false),
   (DEVICE_ID_LIGHTGUN_RELOAD, false), (DEVICE_ID_LIGHTGUN_AUX_A, false),
   (DEVICE_ID_LIGHTGUN_AUX_B, false), (DEVICE_ID_LIGHTGUN_START, false),
   (DEVICE_ID_LIGHTGUN_SELECT, false), (DEVICE_ID_LIGHTGUN_AUX_C, false),
   (DEVICE_ID_LIGHTGUN_DPAD_UP, false), (DEVICE_ID_LIGHTGUN_DPAD_DOWN, false),
   (DEVICE_ID_LIGHTGUN_DPAD_LEFT, false), (DEVICE_ID_LIGHTGUN_DPAD_RIGHT, false),
   (DEVICE_ID_LIGHTGUN_X, true), (DEVICE_ID_LIGHTGUN_Y, true),
   (DEVICE_ID_LIGHTGUN_CURSOR, true), (DEVICE_ID_LIGHTGUN_TURBO, true),
   (DEVICE_ID_LIGHTGUN_PAUSE, true)]

/-- Pointer-namespace id constants, none deprecated. -/
def pointerIdEntries : List (Nat × Bool) :=
  [(DEVICE_ID_POINTER_X, false), (DEVICE_ID_POINTER_Y, false),
   (DEVICE_ID_POINTER_PRESSED, false), (DEVICE_ID_POINTER_COUNT, false)]

/-- Memory-namespace constants, none deprecated. -/
def memoryEntries : List (Nat × Bool) :=
  [(MEMORY_MASK, false), (MEMORY_SAVE_RAM, false), (MEMORY_RTC, false),
   (MEMORY_SYSTEM_RAM, false), (MEMORY_VIDEO_RAM, false)]

/-- Region-namespace constants, none deprecated. -/
def regionEntries : List (Nat × Bool) :=
  [(REGION_NTSC, false), (REGION_PAL, false)]

/-- Device-type namespace constants, none deprecated. -/
def deviceTypeEntries : List (Nat × Bool) := deviceTypes.map (fun v => (v, false))

/-- Environment-command namespace constants, none deprecated. -/
def envCommandEntries : List (Nat × Bool) := envCommands.map (fun v => (v, false))

/-- Two distinct names of one namespace may share a value only when at least
one of the two is documented as deprecated. -/
abbrev uniqueUpToDeprecated (l : List (Nat × Bool)) : Prop :=
  l.Pairwise (fun a b => a.1 = b.1 → (a.2 || b.2) = true)

/-- Every per-device button/axis id constant: joypad ids, analog indices and
ids, mouse ids, lightgun ids (deprecated names included), pointer ids. -/
def perDeviceIdConstants : List Nat :=
  (joypadIdEntries ++ analogIndexEntries ++ analogIdEntries ++ mouseIdEntries ++
   lightgunIdEntries ++ pointerIdEntries).map Prod.fst

/-- C1: `ENVIRONMENT_GET_SENSOR_INTERFACE` equals `25 | 0x10000`, i.e. the
integer 65561, and `0x10000` is the value of `ENVIRONMENT_EXPERIMENTAL`. -/
theorem c1_sensor_interface_value :
    ENVIRONMENT_GET_SENSOR_INTERFACE = 25 ||| 0x10000 ∧
    ENVIRONMENT_GET_SENSOR_INTERFACE = 65561 ∧
    ENVIRONMENT_EXPERIMENTAL = 0x10000 := by
  refine ⟨rfl, by decide, rfl⟩

/-- C8: the seven device-type constants are 0 through 6 in the order none,
joypad, mouse, keyboard, lightgun, analog, pointer, and the subclass shift is
8 bits. -/
theorem c8_device_type_values :
    DEVICE_NONE = 0 ∧ DEVICE_JOYPAD = 1 ∧ DEVICE_MOUSE = 2 ∧
    DEVICE_KEYBOARD = 3 ∧ DEVICE_LIGHTGUN = 4 ∧ DEVICE_ANALOG = 5 ∧
    DEVICE_POINTER = 6 ∧ DEVICE_TYPE_SHIFT = 8 := by
  decide

/-- C10: the four memory-region tags are 0 through 3, `MEMORY_MASK` is 0xFF,
and masking each tag with `MEMORY_MASK` leaves it unchanged. -/
theorem c10_memory_tags :
    MEMORY_SAVE_RAM = 0 ∧ MEMORY_RTC = 1 ∧ MEMORY_SYSTEM_RAM = 2 ∧
    MEMORY_VIDEO_RAM = 3 ∧ MEMORY_MASK = 0xff ∧
    MEMORY_SAVE_RAM &&& MEMORY_MASK = MEMORY_SAVE_RAM ∧
    MEMORY_RTC &&& MEMORY_MASK = MEMORY_RTC ∧
    MEMORY_SYSTEM_RAM &&& MEMORY_MASK = MEMORY_SYSTEM_RAM ∧
    MEMORY_VIDEO_RAM &&& MEMORY_MASK = MEMORY_VIDEO_RAM := by
  decide

/-- Composing a device code below 2^8 with a subclass below 2^24 is plain
positional arithmetic: no bit of the shifted subclass overlaps the code. -/
theorem encodeDevice_eq_add (d s : Nat) (hd : d < 2 ^ 8) (hs : s < 2 ^ 24) :
    encodeDevice d s = 2 ^ 8 * s + d := by
  have h1 : s <<< DEVICE_TYPE_SHIFT = 2 ^ 8 * s := by
    rw [Nat.shiftLeft_eq]; exact Nat.mul_comm _ _
  have h2 : 2 ^ 8 * s < 2 ^ 32 := by
    norm_num at hs ⊢; omega
  unfold encodeDevice
  rw [h1, Nat.mod_eq_of_lt h2, ← Nat.mul_add_lt_is_or hd]

/-- C2: for every published device-type constant `d` and every subclass `s`
that survives an 8-bit left shift in a 32-bit unsigned int, the combination
`(s << DEVICE_TYPE_SHIFT) | d` decodes back to `(d, s)` by masking with
`DEVICE_MASK` and shifting right by `DEVICE_TYPE_SHIFT`. -/
theorem c2_roundtrip (d s : Nat) (hd : d ∈ deviceTypes) (hs : s < 2 ^ 24) :
    decodeDevice (encodeDevice d s) = (d, s) := by
  have hd2 : d < 2 ^ 8 := by fin_cases hd <;> decide
  have h := encodeDevice_eq_add d s hd2 hs
  have hmask : DEVICE_MASK = 2 ^ 8 - 1 := by decide
  simp only [decodeDevice, h, hmask]
  rw [Nat.and_pow_two_sub_one_eq_mod, Nat.mul_add_mod, Nat.mod_eq_of_lt hd2]
  have hshift : (2 ^ 8 * s + d) >>> DEVICE_TYPE_SHIFT = s := by
    rw [Nat.shiftRight_eq_div_pow]
    show (2 ^ 8 * s + d) / 2 ^ 8 = s
    rw [Nat.mul_add_div (by norm_num), Nat.div_eq_of_lt hd2, Nat.add_zero]
  rw [hshift]

/-- Witness for C2 at the claim's concrete scenario:
`DEVICE_JOYPAD | (DEVICE_INDEX_ANALOG_LEFT << 8)` decodes to
device = 1, subclass = 0. -/
theorem c2_roundtrip_witness :
    DEVICE_JOYPAD ∈ deviceTypes ∧ DEVICE_INDEX_ANALOG_LEFT < 2 ^ 24 ∧
    encodeDevice DEVICE_JOYPAD DEVICE_INDEX_ANALOG_LEFT =
      (DEVICE_JOYPAD ||| (DEVICE_INDEX_ANALOG_LEFT <<< DEVICE_TYPE_SHIFT)) ∧
    decodeDevice (encodeDevice DEVICE_JOYPAD DEVICE_INDEX_ANALOG_LEFT) = (1, 0) :=
  ⟨by decide, by decide, by decide,
   c2_roundtrip DEVICE_JOYPAD DEVICE_INDEX_ANALOG_LEFT (by decide) (by decide)⟩

/-- C3 as frozen is false: `ENVIRONMENT_GET_SENSOR_INTERFACE` already carries
the experimental bit, so OR-ing the flag in and then clearing it strips that
bit and does not return the published constant. -/
theorem c3_flag_roundtrip_counterexample :
    ENVIRONMENT_GET_SENSOR_INTERFACE ∈ envCommands ∧
    ¬ ((ENVIRONMENT_GET_SENSOR_INTERFACE ||| ENVIRONMENT_EXPERIMENTAL) &&&
        not32 ENVIRONMENT_EXPERIMENTAL = ENVIRONMENT_GET_SENSOR_INTERFACE) := by
  decide

/-- C3 (amended): for every published environment command `c` and modifier
flag `f` drawn from experimental/private such that `c` does not already
contain the flag bit, `(c | f) & !f == c`. -/
theorem c3_flag_roundtrip :
    ∀ c ∈ envCommands, ∀ f ∈ [ENVIRONMENT_EXPERIMENTAL, ENVIRONMENT_PRIVATE],
      c &&& f = 0 → (c ||| f) &&& not32 f = c := by
  decide

/-- Witness for C3 (amended) at `c = ENVIRONMENT_SET_ROTATION`,
`f = ENVIRONMENT_EXPERIMENTAL`. -/
theorem c3_flag_roundtrip_witness :
    ENVIRONMENT_SET_ROTATION ∈ envCommands ∧
    ENVIRONMENT_EXPERIMENTAL ∈ [ENVIRONMENT_EXPERIMENTAL, ENVIRONMENT_PRIVATE] ∧
    ENVIRONMENT_SET_ROTATION &&& ENVIRONMENT_EXPERIMENTAL = 0 ∧
    (ENVIRONMENT_SET_ROTATION ||| ENVIRONMENT_EXPERIMENTAL) &&&
      not32 ENVIRONMENT_EXPERIMENTAL = ENVIRONMENT_SET_ROTATION :=
  ⟨by decide, by decide, by decide,
   c3_flag_roundtrip ENVIRONMENT_SET_ROTATION (by decide)
     ENVIRONMENT_EXPERIMENTAL (by decide) (by decide)⟩

/-- C4: every published environment command is its base code, optionally
OR-ed with exactly one of the two modifier bits; the base code (modifier bits
cleared) lies between 1 and 73; the modifiers are 0x10000 and 0x20000. -/
theorem c4_command_shape :
    (∀ v ∈ envCommands,
      (1 ≤ baseCode v ∧ baseCode v ≤ 73) ∧
      (v = baseCode v ∨ v = baseCode v ||| ENVIRONMENT_EXPERIMENTAL ∨
       v = baseCode v ||| ENVIRONMENT_PRIVATE)) ∧
    ENVIRONMENT_EXPERIMENTAL = 0x10000 ∧ ENVIRONMENT_PRIVATE = 0x20000 := by
  decide

/-- Witness for C4 at `ENVIRONMENT_GET_SENSOR_INTERFACE`. -/
theorem c4_command_shape_witness :
    ENVIRONMENT_GET_SENSOR_INTERFACE ∈ envCommands ∧
    ((1 ≤ baseCode ENVIRONMENT_GET_SENSOR_INTERFACE ∧
      baseCode ENVIRONMENT_GET_SENSOR_INTERFACE ≤ 73) ∧
     (ENVIRONMENT_GET_SENSOR_INTERFACE = baseCode ENVIRONMENT_GET_SENSOR_INTERFACE ∨
      ENVIRONMENT_GET_SENSOR_INTERFACE =
        baseCode ENVIRONMENT_GET_SENSOR_INTERFACE ||| ENVIRONMENT_EXPERIMENTAL ∨
      ENVIRONMENT_GET_SENSOR_INTERFACE =
        baseCode ENVIRONMENT_GET_SENSOR_INTERFACE ||| ENVIRONMENT_PRIVATE)) :=
  ⟨by decide, c4_command_shape.1 ENVIRONMENT_GET_SENSOR_INTERFACE (by decide)⟩

/-- C5 as frozen is false: `ENVIRONMENT_SET_SERIALIZATION_QUIRKS` (44) and
`ENVIRONMENT_SET_HW_SHARED_CONTEXT` (44 | 0x10000) are two distinct published
commands — neither documented as a deprecated alias of the other — whose base
codes coincide. -/
theorem c5_base_code_unique_counterexample :
    ENVIRONMENT_SET_SERIALIZATION_QUIRKS ∈ envCommands ∧
    ENVIRONMENT_SET_HW_SHARED_CONTEXT ∈ envCommands ∧
    ENVIRONMENT_SET_SERIALIZATION_QUIRKS ≠ ENVIRONMENT_SET_HW_SHARED_CONTEXT ∧
    baseCode ENVIRONMENT_SET_SERIALIZATION_QUIRKS =
      baseCode ENVIRONMENT_SET_HW_SHARED_CONTEXT := by
  decide

/-- C5 (amended): the full published environment-command values are pairwise
distinct, and any two distinct commands with equal base codes are exactly the
pair SET_SERIALIZATION_QUIRKS / SET_HW_SHARED_CONTEXT, which share base code
44 and are told apart by the experimental bit. -/
theorem c5_base_code_unique :
    envCommands.Pairwise (fun a b =>
      a ≠ b ∧ (baseCode a = baseCode b →
        (a = ENVIRONMENT_SET_SERIALIZATION_QUIRKS ∧
         b = ENVIRONMENT_SET_HW_SHARED_CONTEXT) ∨
        (a = ENVIRONMENT_SET_HW_SHARED_CONTEXT ∧
         b = ENVIRONMENT_SET_SERIALIZATION_QUIRKS))) := by
  decide

/-- C6: base command codes never touch the modifier bits, the two modifier
bits are mutually disjoint, and both flag values exceed every base code. -/
theorem c6_flag_bits_disjoint :
    (∀ v ∈ envCommands,
      baseCode v &&& ENVIRONMENT_EXPERIMENTAL = 0 ∧
      baseCode v &&& ENVIRONMENT_PRIVATE = 0 ∧
      baseCode v < ENVIRONMENT_EXPERIMENTAL ∧
      baseCode v < ENVIRONMENT_PRIVATE) ∧
    ENVIRONMENT_EXPERIMENTAL &&& ENVIRONMENT_PRIVATE = 0 := by
  decide

/-- Witness for C6 at `ENVIRONMENT_GET_HW_RENDER_CONTEXT_NEGOTIATION_INTERFACE_SUPPORT`,
the command with the largest base code (73). -/
theorem c6_flag_bits_disjoint_witness :
    ENVIRONMENT_GET_HW_RENDER_CONTEXT_NEGOTIATION_INTERFACE_SUPPORT ∈ envCommands ∧
    (baseCode ENVIRONMENT_GET_HW_RENDER_CONTEXT_NEGOTIATION_INTERFACE_SUPPORT &&&
       ENVIRONMENT_EXPERIMENTAL = 0 ∧
     baseCode ENVIRONMENT_GET_HW_RENDER_CONTEXT_NEGOTIATION_INTERFACE_SUPPORT &&&
       ENVIRONMENT_PRIVATE = 0 ∧
     baseCode ENVIRONMENT_GET_HW_RENDER_CONTEXT_NEGOTIATION_INTERFACE_SUPPORT <
       ENVIRONMENT_EXPERIMENTAL ∧
     baseCode ENVIRONMENT_GET_HW_RENDER_CONTEXT_NEGOTIATION_INTERFACE_SUPPORT <
       ENVIRONMENT_PRIVATE) :=
  ⟨by decide,
   c6_flag_bits_disjoint.1
     ENVIRONMENT_GET_HW_RENDER_CONTEXT_NEGOTIATION_INTERFACE_SUPPORT (by decide)⟩

/-- C7: within each constant namespace, two distinct names share a value only
when one of them is documented as deprecated (lightgun CURSOR/AUX_A at 3 and
TURBO/AUX_B at 4 are the only such pairs). -/
theorem c7_namespace_values_unique :
    uniqueUpToDeprecated deviceTypeEntries ∧
    uniqueUpToDeprecated joypadIdEntries ∧
    uniqueUpToDeprecated analogIndexEntries ∧
    uniqueUpToDeprecated analogIdEntries ∧
    uniqueUpToDeprecated mouseIdEntries ∧
    uniqueUpToDeprecated lightgunIdEntries ∧
    uniqueUpToDeprecated pointerIdEntries ∧
    uniqueUpToDeprecated memoryEntries ∧
    uniqueUpToDeprecated regionEntries ∧
    uniqueUpToDeprecated envCommandEntries := by
  decide

/-- C9 as frozen is false: `DEVICE_ID_JOYPAD_MASK`, a constant of the joypad
id namespace, has value 256, outside the range 0 to 16. -/
theorem c9_id_range_counterexample :
    DEVICE_ID_JOYPAD_MASK ∈ perDeviceIdConstants ∧
    ¬ DEVICE_ID_JOYPAD_MASK ≤ 16 := by
  decide

/-- C9 (amended): every per-device button/axis id constant other than the
bitmask request id `DEVICE_ID_JOYPAD_MASK` (value 256) lies in 0..16. -/
theorem c9_id_range :
    ∀ v ∈ perDeviceIdConstants, v = DEVICE_ID_JOYPAD_MASK ∨ v ≤ 16 := by
  decide

/-- Witness for C9 (amended) at `DEVICE_ID_LIGHTGUN_RELOAD`, the largest
non-mask id (16). -/
theorem c9_id_range_witness :
    DEVICE_ID_LIGHTGUN_RELOAD ∈ perDeviceIdConstants ∧
    (DEVICE_ID_LIGHTGUN_RELOAD = DEVICE_ID_JOYPAD_MASK ∨
     DEVICE_ID_LIGHTGUN_RELOAD ≤ 16) :=
  ⟨by decide, c9_id_range DEVICE_ID_LIGHTGUN_RELOAD (by decide)⟩
